import Mathlib

/-!
Verification of the `scout` endpoint-monitoring engine (Go) against its
specification, via a shallow embedding of the core: the `Service` record,
the Success/Failure outcome reporters, the linear jitter backoff, the
protocol checkers (TCP/UDP, ICMP, HTTP) with their network environments
made explicit, the per-endpoint monitoring loop, and the registry.

Conventions of the embedding:
* Go `time.Duration` / `int64` fields are `Int` (nanoseconds resp. ms).
* `uuid.UUID` is `Nat`, with `0` standing for `uuid.Nil`.
* The stop channel `Running chan bool` is `Option Bool`: `none` is the nil
  channel, `some true` an open channel, `some false` a closed one
  (a receive on a closed channel succeeds immediately; on an open channel
  with no sender it blocks, so `select` takes the `default` branch).
* `rand.Float64()` is modelled as an exact rational `f` with `0 ≤ f < 1`;
  Go's `int64(float64)` conversion truncates toward zero (`ratTrunc`).
* Network effects (DNS lookups, dials, ICMP echoes, HTTP exchanges) are
  inputs: each checker takes an environment record describing what the
  network did, and returns the updated service plus the list of outcomes
  pushed onto the response channel, in push order.
* A Go runtime panic is modelled by an `Option` result of `none`.
-/

/-- One outcome record pushed on the response channel: `ServiceSuccess`
(fields `Service`, `RequestLatency`, `NetworkLatency`) or `ServiceFailure`
(fields `Service`, `Issue`, `NetworkLatency`, `RetriesExhausted`,
`ErrorCode`, `TraceData`).  Timestamps (`CreatedAt`) are omitted. -/
inductive Outcome where
  | success (service : Nat) (requestLatency : Int) (networkLatency : Int)
  | failure (service : Nat) (issue : String) (networkLatency : Int)
      (retriesExhausted : Bool) (errorCode : Int) (traceData : List Int)
deriving DecidableEq, Repr

/-- The `RetriesExhausted` flag of an outcome (`false` for a success). -/
def Outcome.exhausted : Outcome → Bool
  | .success .. => false
  | .failure _ _ _ ex _ _ => ex

/-- Whether the outcome is a `ServiceFailure`. -/
def Outcome.isFail : Outcome → Bool
  | .success .. => false
  | .failure .. => true

/-- The `Issue` text of an outcome (`""` for a success). -/
def Outcome.issueOf : Outcome → String
  | .success .. => ""
  | .failure _ i _ _ _ _ => i

/-- The `NetworkLatency` field of an outcome. -/
def Outcome.netLat : Outcome → Int
  | .success _ _ n => n
  | .failure _ _ n _ _ _ => n

/-- The `Service` struct of `service.go` (static config plus mutable
runtime state).  Time-valued fields (`CreatedAt`, `UpdatedAt`,
`LastOnline`) are omitted; `Checkpoint` is an `Int` instant in ns;
`Headers`/`Method`/`PostData` etc. are kept only where a claim needs
them.  `running` models the `Running chan bool` stop channel,
`responses`/`slogger` model which response channel / logger the service
is wired to (by identity). -/
structure Service where
  id : Nat := 0
  name : String := ""
  address : String := ""
  resolveTo : String := ""
  expected : String := ""
  expectedStatus : Int := 0
  interval : Int := 0
  typ : String := ""
  port : Int := 0
  timeout : Int := 0
  online : Bool := false
  dnsResolve : Int := 0
  requestLatency : Int := 0
  networkLatency : Int := 0
  trace : Bool := false
  traceData : List Int := []
  retry : Bool := false
  retryMinInterval : Int := 0
  retryMaxInterval : Int := 0
  retryMax : Int := 0
  retryAttempts : Int := 0
  running : Option Bool := none
  checkpoint : Int := 0
  sleepDuration : Int := 0
  lastResponse : String := ""
  downText : String := ""
  lastStatusCode : Int := 0
  responses : Option Nat := none
  slogger : Option Nat := none
deriving DecidableEq, Repr

/-- `IsRunning`: a nil channel yields `false`; a closed channel is
immediately receivable (`false`); otherwise the `default` branch (`true`). -/
def isRunningS (s : Service) : Bool :=
  match s.running with
  | none => false
  | some b => b

/-- `Stop`: close the channel only when `IsRunning` (idempotent close). -/
def serviceStop (s : Service) : Service :=
  if isRunningS s then { s with running := some false } else s

/-- `Start`: allocate a fresh (open) stop channel. -/
def serviceStart (s : Service) : Service :=
  { s with running := some true }

/-- The exhaustion test of `Failure`:
`s.RetryAttempts == s.RetryMax && s.RetryMax != 0`. -/
def failExhausted (s : Service) : Bool :=
  decide (s.retryAttempts = s.retryMax ∧ s.retryMax ≠ 0)

/-- `Service.Failure(issue)`: compute the exhausted flag (stopping the
loop when exhausted), build the failure record (latency and error code
read before the trace step), run the optional route trace (`tr` is the
accumulated trace data of this invocation), set `Online=false` and
`DownText`, attach the trace data, and push the record. -/
def serviceFailure (issue : String) (tr : List Int) (s : Service) :
    Service × Outcome :=
  let ex := failExhausted s
  let s1 := if ex then serviceStop s else s
  let s2 := if s1.trace then { s1 with traceData := s1.traceData ++ tr } else s1
  let s3 := { s2 with online := false, downText := issue }
  (s3, Outcome.failure s.id issue s.networkLatency ex s.lastStatusCode s3.traceData)

/-- `Service.Success()`: reset the attempt counter, build the success
record from the current latency fields, set `Online=true`, push. -/
def serviceSuccess (s : Service) : Service × Outcome :=
  let s1 := { s with retryAttempts := 0 }
  let s2 := { s1 with online := true }
  (s2, Outcome.success s.id s.requestLatency s.networkLatency)

/-- Go's `int64(x)` conversion of a float: truncation toward zero. -/
def ratTrunc (q : ℚ) : Int :=
  if 0 ≤ q then ⌊q⌋ else ⌈q⌉

/-- `LinearJitterBackoff`, with the drawn `rand.Float64()` given as the
exact rational `f`.  Note the source's `max <= min` branch assigns
`SleepDuration` but does not return, so the jitter computation below it
always runs and overwrites the assignment. -/
def linearJitterBackoff (f : ℚ) (s : Service) : Service :=
  let s1 := { s with retryAttempts := s.retryAttempts + 1 }
  let s2 :=
    if s1.retryMaxInterval ≤ s1.retryMinInterval then
      { s1 with sleepDuration := s1.retryMinInterval * s1.retryAttempts }
    else s1
  let jitter : ℚ := f * ((s2.retryMaxInterval - s2.retryMinInterval : Int) : ℚ)
  let jitterMin : Int := ratTrunc jitter + s2.retryMinInterval
  { s2 with sleepDuration := jitterMin * s2.retryAttempts }

/-- A convenient all-defaults service for concrete instances. -/
def baseService : Service := {}

/-- The concrete input of the C5 failing case: `retryMinInterval` 2s,
`retryMaxInterval` 1s (so `max < min`), first attempt. -/
def c5S : Service :=
  { baseService with
      retryMinInterval := 2000000000, retryMaxInterval := 1000000000,
      retryAttempts := 0 }

/-- C4: with `retryMinInterval < retryMaxInterval` and the drawn fraction
`f ∈ [0,1)`, the backoff delay for attempt `a = retryAttempts + 1` equals
`(minInterval + trunc (f * (maxInterval - minInterval))) * a`, which lies
in `[minInterval * a, maxInterval * a]`. -/
theorem c4_backoff_bounds (f : ℚ) (s : Service)
    (hlt : s.retryMinInterval < s.retryMaxInterval)
    (hf0 : 0 ≤ f) (hf1 : f < 1) (ha : 0 ≤ s.retryAttempts) :
    (linearJitterBackoff f s).sleepDuration
        = (s.retryMinInterval
            + ratTrunc (f * ((s.retryMaxInterval - s.retryMinInterval : Int) : ℚ)))
          * (s.retryAttempts + 1)
    ∧ s.retryMinInterval * (s.retryAttempts + 1)
        ≤ (linearJitterBackoff f s).sleepDuration
    ∧ (linearJitterBackoff f s).sleepDuration
        ≤ s.retryMaxInterval * (s.retryAttempts + 1) := by
  have hd : (0 : Int) < s.retryMaxInterval - s.retryMinInterval := by omega
  have hdq : (0 : ℚ) < ((s.retryMaxInterval - s.retryMinInterval : Int) : ℚ) := by
    exact_mod_cast hd
  have hj0 : (0 : ℚ) ≤ f * ((s.retryMaxInterval - s.retryMinInterval : Int) : ℚ) :=
    mul_nonneg hf0 (le_of_lt hdq)
  have htr : ratTrunc (f * ((s.retryMaxInterval - s.retryMinInterval : Int) : ℚ))
      = ⌊f * ((s.retryMaxInterval - s.retryMinInterval : Int) : ℚ)⌋ := by
    simp only [ratTrunc]
    rw [if_pos hj0]
  have h0le : (0 : Int) ≤ ⌊f * ((s.retryMaxInterval - s.retryMinInterval : Int) : ℚ)⌋ :=
    Int.le_floor.mpr (by exact_mod_cast hj0)
  have hlt' : f * ((s.retryMaxInterval - s.retryMinInterval : Int) : ℚ)
      < ((s.retryMaxInterval - s.retryMinInterval : Int) : ℚ) := by
    calc f * ((s.retryMaxInterval - s.retryMinInterval : Int) : ℚ)
        < 1 * ((s.retryMaxInterval - s.retryMinInterval : Int) : ℚ) :=
          mul_lt_mul_of_pos_right hf1 hdq
      _ = ((s.retryMaxInterval - s.retryMinInterval : Int) : ℚ) := one_mul _
  have hfl : ⌊f * ((s.retryMaxInterval - s.retryMinInterval : Int) : ℚ)⌋
      < s.retryMaxInterval - s.retryMinInterval :=
    Int.floor_lt.mpr (by exact_mod_cast hlt')
  have hne : ¬ s.retryMaxInterval ≤ s.retryMinInterval := not_le.mpr hlt
  have hval : (linearJitterBackoff f s).sleepDuration
      = (ratTrunc (f * ((s.retryMaxInterval - s.retryMinInterval : Int) : ℚ))
          + s.retryMinInterval) * (s.retryAttempts + 1) := by
    simp only [linearJitterBackoff]
    rw [if_neg hne]
  refine ⟨?_, ?_, ?_⟩
  · rw [hval]; ring
  · rw [hval, htr]
    have : s.retryMinInterval
        ≤ ⌊f * ((s.retryMaxInterval - s.retryMinInterval : Int) : ℚ)⌋
          + s.retryMinInterval := by omega
    exact mul_le_mul_of_nonneg_right this (by omega)
  · rw [hval, htr]
    have : ⌊f * ((s.retryMaxInterval - s.retryMinInterval : Int) : ℚ)⌋
        + s.retryMinInterval ≤ s.retryMaxInterval := by omega
    exact mul_le_mul_of_nonneg_right this (by omega)

/-- The concrete input of the C4 witness: `min = 1s < max = 3s`. -/
def baseServiceC4 : Service :=
  { baseService with
      retryMinInterval := 1000000000, retryMaxInterval := 3000000000,
      retryAttempts := 0 }

/-- Witness for C4 at `min = 1s`, `max = 3s`, `f = 1/2`, first attempt:
the hypotheses hold and the computed delay obeys the bounds. -/
theorem c4_backoff_bounds_witness :
    baseServiceC4.retryMinInterval < baseServiceC4.retryMaxInterval
    ∧ (0 : ℚ) ≤ 1 / 2 ∧ (1 / 2 : ℚ) < 1 ∧ (0 : Int) ≤ baseServiceC4.retryAttempts
    ∧ baseServiceC4.retryMinInterval * (baseServiceC4.retryAttempts + 1)
        ≤ (linearJitterBackoff (1 / 2) baseServiceC4).sleepDuration
    ∧ (linearJitterBackoff (1 / 2) baseServiceC4).sleepDuration
        ≤ baseServiceC4.retryMaxInterval * (baseServiceC4.retryAttempts + 1) :=
  ⟨by decide, by norm_num, by norm_num, by decide,
    (c4_backoff_bounds (1 / 2) baseServiceC4 (by decide) (by norm_num)
      (by norm_num) (by decide)).2.1,
    (c4_backoff_bounds (1 / 2) baseServiceC4 (by decide) (by norm_num)
      (by norm_num) (by decide)).2.2⟩

/-- C5: at `min = 2s > max = 1s`, attempt 1, drawn fraction `f = 1/2`,
the `max <= min` branch's assignment `min * attempt = 2s` is overwritten
(missing `return`) by the fall-through jitter computation, which yields
`(min + trunc (f * (max - min))) * attempt = 1.5s ≠ min * attempt`. -/
theorem c5_missing_return_overwrites_min_delay :
    (linearJitterBackoff (1 / 2) c5S).sleepDuration = 1500000000
    ∧ (linearJitterBackoff (1 / 2) c5S).sleepDuration
        ≠ c5S.retryMinInterval * 1 := by
  have h : (linearJitterBackoff (1 / 2) c5S).sleepDuration = 1500000000 := by
    simp only [linearJitterBackoff, c5S, baseService, ratTrunc]
    norm_num
    rw [show ((-500000000 : ℚ)) = ((-500000000 : Int) : ℚ) by norm_num,
      Int.ceil_intCast]
    norm_num
  exact ⟨h, by rw [h]; decide⟩

/-! ## Registry (`Scout` of the registry source, first version) -/

/-- Association-list lookup, modelling a Go map read
(`s.Services[id]`, missing key gives the zero value). -/
def lookupAssoc (k : Nat) : List (Nat × Service) → Option Service
  | [] => none
  | p :: rest => if p.1 = k then some p.2 else lookupAssoc k rest

/-- Association-list insert-or-replace, modelling a Go map write. -/
def insertAssoc (k : Nat) (v : Service) : List (Nat × Service) → List (Nat × Service)
  | [] => [(k, v)]
  | p :: rest => if p.1 = k then (k, v) :: rest else p :: insertAssoc k v rest

/-- Association-list delete, modelling Go's `delete(map, key)`. -/
def eraseAssoc (k : Nat) : List (Nat × Service) → List (Nat × Service)
  | [] => []
  | p :: rest => if p.1 = k then eraseAssoc k rest else p :: eraseAssoc k rest

/-- The `Scout` registry: the id→service map, the identity of the shared
response channel and of the logger, and the overall running flag.
(The `sync.RWMutex` only serialises access and has no sequential
content.) -/
structure Scout where
  services : List (Nat × Service)
  responses : Nat
  rlogger : Nat
  running : Bool
deriving DecidableEq, Repr

/-- `AddService`: a nil service or one with the nil UUID is ignored;
otherwise the service is wired to the shared response channel and the
registry logger, inserted or replaced in the map, and — when the
registry is running — its `Scout` loop is spawned.  The returned `Bool`
records whether `go serv.Scout()` was spawned. -/
def addService (g : Scout) (serv : Option Service) : Scout × Bool :=
  match serv with
  | none => (g, false)
  | some sv =>
    if sv.id ≠ 0 then
      let sv1 := { sv with responses := some g.responses, slogger := some g.rlogger }
      ({ g with services := insertAssoc sv1.id sv1 g.services }, g.running)
    else (g, false)

/-- `DelService`: for a non-nil id the source runs
`s.Services[id].Stop()` before `delete(s.Services, id)`.  When the id
has no entry the map read yields a nil `*Service`, and `Stop` →
`IsRunning` dereferences `s.Running` on that nil receiver: a runtime
panic, modelled as `none`. -/
def delService (g : Scout) (idv : Nat) : Option Scout :=
  if idv ≠ 0 then
    match lookupAssoc idv g.services with
    | none => none
    | some sv =>
      let _stopped := serviceStop sv
      some { g with services := eraseAssoc idv g.services }
  else some g

/-- Looking up a key just inserted finds the inserted value. -/
theorem lookupAssoc_insertAssoc (k : Nat) (v : Service) :
    ∀ l : List (Nat × Service), lookupAssoc k (insertAssoc k v l) = some v := by
  intro l
  induction l with
  | nil => simp [insertAssoc, lookupAssoc]
  | cons p rest ih =>
    by_cases h : p.1 = k
    · simp [insertAssoc, lookupAssoc, h]
    · simp [insertAssoc, lookupAssoc, h, ih]

/-- An empty, not-running registry. -/
def emptyScout : Scout := { services := [], responses := 0, rlogger := 0, running := false }

/-- C6: removing an id that has no entry in the registry faults: the
source dereferences the nil `*Service` returned by the map and panics
(modelled by `none`), contradicting the claim that removal never
faults. -/
theorem c6_del_missing_id_panics : delService emptyScout 1 = none := by decide

/-- C9: `addService` ignores a nil service and a service with the nil
identifier; for a proper identifier it inserts or replaces the entry,
wired to the registry's shared response channel (and logger), reports
that the loop was spawned exactly when the registry is already running,
and leaves the running flag and channel unchanged. -/
theorem c9_add_service (g : Scout) (sv : Service) :
    addService g none = (g, false)
    ∧ (sv.id = 0 → addService g (some sv) = (g, false))
    ∧ (sv.id ≠ 0 →
        lookupAssoc sv.id (addService g (some sv)).1.services
            = some { sv with responses := some g.responses, slogger := some g.rlogger }
        ∧ (addService g (some sv)).2 = g.running
        ∧ (addService g (some sv)).1.running = g.running
        ∧ (addService g (some sv)).1.responses = g.responses) := by
  refine ⟨rfl, ?_, ?_⟩
  · intro h
    simp [addService, h]
  · intro h
    refine ⟨?_, ?_, ?_, ?_⟩
    · simp only [addService, if_pos h]
      exact lookupAssoc_insertAssoc sv.id _ g.services
    · simp [addService, h]
    · simp [addService, h]
    · simp [addService, h]

/-- The concrete registry and service of the C9 witness: a running
registry and a service with id 7. -/
def c9Reg : Scout := { services := [], responses := 3, rlogger := 4, running := true }

/-- The concrete service of the C9 witness. -/
def c9Sv : Service := { baseService with id := 7 }

/-- Witness for C9: at a running registry and a service with id `7 ≠ 0`,
the inserted entry is found wired to the shared channel and the loop is
reported spawned. -/
theorem c9_add_service_witness :
    c9Sv.id ≠ 0
    ∧ lookupAssoc c9Sv.id (addService c9Reg (some c9Sv)).1.services
        = some { c9Sv with responses := some c9Reg.responses, slogger := some c9Reg.rlogger }
    ∧ (addService c9Reg (some c9Sv)).2 = c9Reg.running :=
  ⟨by decide, ((c9_add_service c9Reg c9Sv).2.2 (by decide)).1,
    ((c9_add_service c9Reg c9Sv).2.2 (by decide)).2.1⟩

/-! ## Protocol checkers -/

/-- `isIPv6`: `strings.Count(address, ":") >= 2`. -/
def isIPv6 (address : String) : Bool :=
  2 ≤ (address.toList.filter (fun c => c = ':')).length

/-- A single quote character, as used in the source's body-mismatch
message. -/
def squo : String := String.singleton (Char.ofNat 39)

/-- The dial address of `CheckNet`: `host`, `host:port`, or
`[host]:port` when the host is an IPv6 literal and a port is set. -/
def dialAddr (s : Service) : String :=
  if s.port ≠ 0 then
    if isIPv6 s.address then "[" ++ s.address ++ "]:" ++ toString s.port
    else s.address ++ ":" ++ toString s.port
  else s.address

/-- The dial timeout of `CheckNet`/`CheckHTTP`:
`time.Duration(s.Timeout) * time.Second`, i.e. the numeric value of the
configured `Duration` (nanoseconds) multiplied by `10^9` ns. -/
def dialTimeoutNs (s : Service) : Int := s.timeout * 1000000000

/-- The dial request `CheckNet` issues to `net.DialTimeout`. -/
structure DialReq where
  network : String
  addr : String
  timeoutNs : Int
deriving DecidableEq, Repr

/-- What the network did during the best-effort `ping` probe:
the addresses `s.ips()` found, whether `net.ResolveIPAddr` errored,
whether `p.Run()` errored, and the observed echo reply (rtt ms), plus
the trace data a triggered route trace would accumulate. -/
structure PingEnv where
  ips : List String
  resolveErr : Option String
  runErr : Option String
  reply : Option Int
  traces : List Int
deriving DecidableEq, Repr

/-- The `ping` helper of `CheckNet`: with no resolved address it
silently yields the sentinel `-1`; a resolve error or a run error makes
it call `Failure` itself (pushing an outcome) and yield `-1`; otherwise
it yields the reply rtt, or `-1` when no reply arrived. -/
def pingProbe (env : PingEnv) (s : Service) : Service × List Outcome × Int :=
  if env.ips.length < 1 then (s, [], -1)
  else
    match env.resolveErr with
    | some e =>
      let r := serviceFailure ("Could not send ICMP to service " ++ s.address ++ ", " ++ e)
        env.traces s
      (r.1, [r.2], -1)
    | none =>
      match env.runErr with
      | some e =>
        let r := serviceFailure ("Issue running ICMP to service " ++ s.address ++ ", " ++ e)
          env.traces s
        (r.1, [r.2], -1)
      | none =>
        match env.reply with
        | some rtt => (s, [], rtt)
        | none => (s, [], -1)

/-- What the network did during a `CheckNet` cycle: the `DNSCheck`
result (elapsed ms or error), the ping-probe environment, the dial and
socket-close errors, and the measured elapsed time of the round trip. -/
structure NetEnv where
  dns : Except String Int
  pe : PingEnv
  dialErr : Option String
  closeErr : Option String
  elapsedMs : Int
  traces : List Int
deriving Repr

/-- `CheckNet`: DNS check (Failure on error), record the resolve time,
run the best-effort ping probe and store its value as the network
latency, then dial `dialAddr` with timeout `dialTimeoutNs` — Failure on
dial error, Failure on socket-close error, otherwise record the elapsed
round trip and report Success.  Returns the updated service, the pushed
outcomes in order, and the dial request issued (none when DNS failed
before dialing). -/
def checkNet (env : NetEnv) (s : Service) :
    Service × List Outcome × Option DialReq :=
  match env.dns with
  | .error e =>
    let r := serviceFailure
      ("Could not get IP address for TCP service " ++ s.address ++ ", " ++ e) env.traces s
    (r.1, [r.2], none)
  | .ok d =>
    let s1 := { s with dnsResolve := d }
    let pr := pingProbe env.pe s1
    let s2 := { pr.1 with networkLatency := pr.2.2 }
    let req : DialReq := { network := s2.typ, addr := dialAddr s2, timeoutNs := dialTimeoutNs s2 }
    match env.dialErr with
    | some e =>
      let r := serviceFailure ("Dial Error " ++ e) env.traces s2
      (r.1, pr.2.1 ++ [r.2], some req)
    | none =>
      match env.closeErr with
      | some e =>
        let r := serviceFailure (s2.typ.toUpper ++ " Socket Close Error " ++ e) env.traces s2
        (r.1, pr.2.1 ++ [r.2], some req)
      | none =>
        let s3 := { s2 with requestLatency := env.elapsedMs, lastResponse := "" }
        let r := serviceSuccess s3
        (r.1, pr.2.1 ++ [r.2], some req)

/-- What the network did during a `CheckICMP` cycle. -/
structure IcmpEnv where
  resolveErr : Option String
  runErr : Option String
  reply : Option Int
  traces : List Int
deriving DecidableEq, Repr

/-- `CheckICMP`: Failure on resolve error; otherwise a received reply
(`OnRecv`) records the rtt as network latency before `Run` returns;
Failure on run error; then Success when a reply arrived, else network
latency is set to the sentinel `-1` and a Failure with the source's
literal idle-timeout message is pushed.  `LastResponse` is cleared only
on the two non-early-return paths. -/
def checkICMP (env : IcmpEnv) (s : Service) : Service × List Outcome :=
  match env.resolveErr with
  | some e =>
    let r := serviceFailure ("Could not send ICMP to service " ++ s.address ++ ", " ++ e)
      env.traces s
    (r.1, [r.2])
  | none =>
    let sr : Service × Bool :=
      match env.reply with
      | some rtt => ({ s with networkLatency := rtt }, true)
      | none => (s, false)
    match env.runErr with
    | some e =>
      let r := serviceFailure ("Issue running ICMP to service " ++ sr.1.address ++ ", " ++ e)
        env.traces sr.1
      (r.1, [r.2])
    | none =>
      if sr.2 then
        let r := serviceSuccess sr.1
        ({ r.1 with lastResponse := "" }, [r.2])
      else
        let s2 := { sr.1 with networkLatency := -1 }
        let r := serviceFailure "Reachmed max ICMP idle timeout" env.traces s2
        ({ r.1 with lastResponse := "" }, [r.2])

/-- The response of a completed HTTP exchange. -/
structure HttpResp where
  content : String
  statusCode : Int
  netLat : Int
  reqLat : Int
deriving DecidableEq, Repr

/-- What the network did during a `CheckHTTP` cycle; `matched` is the
result of `regexp.MatchString(s.Expected, content)` (false when the
regex errors). -/
structure HttpEnv where
  dns : Except String Int
  resp : Except String HttpResp
  matched : Bool
  traces : List Int
deriving Repr

/-- `CheckHTTP`: DNS check (Failure on error); issue the request
(Failure on transport error); record latencies, body and status code;
Failure when a non-empty expected-body pattern does not match; Failure
when the status code differs from `ExpectedStatus`; otherwise
Success. -/
def checkHTTP (env : HttpEnv) (s : Service) : Service × List Outcome :=
  match env.dns with
  | .error e =>
    let r := serviceFailure
      ("Could not get IP address for domain " ++ s.address ++ ", " ++ e) env.traces s
    (r.1, [r.2])
  | .ok d =>
    let s1 := { s with dnsResolve := d }
    match env.resp with
    | .error e =>
      let r := serviceFailure ("HTTP Error " ++ e) env.traces s1
      (r.1, [r.2])
    | .ok hr =>
      let s2 := { s1 with networkLatency := hr.netLat, requestLatency := hr.reqLat,
                          lastResponse := hr.content, lastStatusCode := hr.statusCode }
      if s2.expected ≠ "" ∧ env.matched = false then
        let r := serviceFailure
          ("HTTP Response Body did not match " ++ squo ++ s2.expected ++ squo) env.traces s2
        (r.1, [r.2])
      else if s2.expectedStatus ≠ hr.statusCode then
        let r := serviceFailure
          ("HTTP Status Code " ++ toString hr.statusCode ++ " did not match "
            ++ toString s2.expectedStatus) env.traces s2
        (r.1, [r.2])
      else
        let r := serviceSuccess s2
        (r.1, [r.2])

/-! ## Claims about the checkers -/

/-- A `Failure` push is a failure outcome. -/
theorem serviceFailure_isFail (i : String) (tr : List Int) (s : Service) :
    ((serviceFailure i tr s).2).isFail = true := rfl

/-- `Failure` leaves the network-latency field unchanged. -/
theorem serviceFailure_netLat (i : String) (tr : List Int) (s : Service) :
    ((serviceFailure i tr s).1).networkLatency = s.networkLatency := by
  simp only [serviceFailure, serviceStop]
  split_ifs <;> rfl

/-- When neither the ICMP resolve nor the run of the probe errors, the
probe pushes no outcome and leaves the service unchanged. -/
theorem pingProbe_quiet (env : PingEnv) (s : Service)
    (h1 : env.resolveErr = none) (h2 : env.runErr = none) :
    (pingProbe env s).1 = s ∧ (pingProbe env s).2.1 = [] := by
  simp only [pingProbe, h1, h2]
  split
  · exact ⟨rfl, rfl⟩
  · cases env.reply <;> simp

/-- When the probe's run step errors (addresses were found, resolve
succeeded), the probe itself pushes exactly one Failure outcome and
yields the sentinel. -/
theorem pingProbe_runErr (env : PingEnv) (s : Service) (e : String)
    (hips : ¬ env.ips.length < 1) (h1 : env.resolveErr = none)
    (h2 : env.runErr = some e) :
    (pingProbe env s).2.1
        = [(serviceFailure ("Issue running ICMP to service " ++ s.address ++ ", " ++ e)
            env.traces s).2]
    ∧ (pingProbe env s).2.2 = -1 := by
  constructor <;> (unfold pingProbe; rw [if_neg hips, h1, h2])

/-- C3 (amended): a completed TCP/UDP check pushes exactly one outcome
provided the best-effort probe did not error (no addresses found, or
resolve and run both clean); a probe with clean resolve/run never pushes
an outcome and leaves the latency at the `-1` sentinel when no reply
arrived; but a probe whose run step errors pushes an additional Failure
outcome of its own, so the completed check pushes two outcomes, the
first of which is the probe's Failure. -/
theorem c3_outcome_count (env : NetEnv) (s : Service) (d : Int) (e : String) :
    ((env.pe.ips = [] ∨ (env.pe.resolveErr = none ∧ env.pe.runErr = none)) →
        (checkNet env s).2.1.length = 1)
    ∧ ((env.pe.resolveErr = none ∧ env.pe.runErr = none) →
        (pingProbe env.pe s).2.1 = []
        ∧ (env.pe.reply = none → (pingProbe env.pe s).2.2 = -1))
    ∧ (env.dns = Except.ok d → env.pe.ips ≠ [] → env.pe.resolveErr = none →
        env.pe.runErr = some e →
        (checkNet env s).2.1.length = 2
        ∧ ((checkNet env s).2.1.map Outcome.isFail).take 1 = [true]) := by
  refine ⟨?_, ?_, ?_⟩
  · intro h
    rcases hdns : env.dns with e0 | d0
    · simp [checkNet, hdns]
    · have hq : ∀ t : Service, (pingProbe env.pe t).2.1 = [] := by
        intro t
        rcases h with h | ⟨h1, h2⟩
        · simp [pingProbe, h]
        · exact (pingProbe_quiet env.pe t h1 h2).2
      rcases hde : env.dialErr with _ | e1
      · rcases hce : env.closeErr with _ | e2 <;> simp [checkNet, hdns, hde, hce, hq]
      · simp [checkNet, hdns, hde, hq]
  · rintro ⟨h1, h2⟩
    refine ⟨(pingProbe_quiet env.pe s h1 h2).2, ?_⟩
    intro h3
    simp only [pingProbe, h1, h2, h3]
    split
    · rfl
    · rfl
  · intro hdns hips h1 h2
    have hlen : ¬ env.pe.ips.length < 1 := by
      cases hi : env.pe.ips with
      | nil => exact absurd hi hips
      | cons a l => simp [hi]
    have hpp := pingProbe_runErr env.pe { s with dnsResolve := d } e hlen h1 h2
    rcases hde : env.dialErr with _ | e1
    · rcases hce : env.closeErr with _ | e2 <;>
        simp [checkNet, hdns, hde, hce, hpp.1, serviceFailure_isFail]
    · simp [checkNet, hdns, hde, hpp.1, serviceFailure_isFail]

/-- The concrete service of the C3 counterexample. -/
def c3S : Service := { baseService with typ := "tcp", address := "10.9.9.9", port := 80 }

/-- The concrete network environment of the C3 counterexample: DNS
resolves, the probe finds an address but its `p.Run()` errors
(e.g. raw sockets not permitted), then the main dial is refused. -/
def c3Env : NetEnv :=
  { dns := .ok 1,
    pe := { ips := ["10.9.9.9"], resolveErr := none,
            runErr := some "operation not permitted", reply := none, traces := [] },
    dialErr := some "connection refused", closeErr := none, elapsedMs := 0, traces := [] }

/-- C3 counterexample: one completed TCP check pushes TWO outcomes —
the probe's own Failure (from its run error) followed by the dial
Failure — refuting both "exactly one Outcome per completed check" and
"the probe never itself produces a Failure outcome". -/
theorem c3_ping_pushes_failure :
    (checkNet c3Env c3S).2.1.length = 2
    ∧ (checkNet c3Env c3S).2.1.map Outcome.issueOf
        = ["Issue running ICMP to service 10.9.9.9, operation not permitted",
           "Dial Error connection refused"] := ⟨rfl, rfl⟩

/-- The concrete environment of the C3 witness: probe resolve and run
both clean. -/
def c3wEnv : NetEnv :=
  { dns := .ok 1,
    pe := { ips := ["10.9.9.9"], resolveErr := none, runErr := none,
            reply := some 5, traces := [] },
    dialErr := none, closeErr := none, elapsedMs := 3, traces := [] }

/-- Witness for C3: with a clean probe, the completed check pushes
exactly one outcome. -/
theorem c3_outcome_count_witness :
    (c3wEnv.pe.ips = [] ∨ (c3wEnv.pe.resolveErr = none ∧ c3wEnv.pe.runErr = none))
    ∧ (checkNet c3wEnv c3S).2.1.length = 1 :=
  ⟨Or.inr ⟨rfl, rfl⟩,
    (c3_outcome_count c3wEnv c3S 1 "").1 (Or.inr ⟨rfl, rfl⟩)⟩

/-- The concrete service of the C7 failing case: a TCP endpoint with an
IPv6 literal host, port 80, and the source's own default timeout of one
second (`Duration(1 * time.Second)`, i.e. `10^9` ns). -/
def c7S : Service :=
  { baseService with typ := "tcp", address := "::1", port := 80, timeout := 1000000000 }

/-- The concrete environment of the C7 failing case (DNS ok, probe
finds nothing, dial succeeds). -/
def c7Env : NetEnv :=
  { dns := .ok 0,
    pe := { ips := [], resolveErr := none, runErr := none, reply := none, traces := [] },
    dialErr := none, closeErr := none, elapsedMs := 2, traces := [] }

/-- C7: the dial request of `CheckNet` brackets the IPv6 host as
`[::1]:80`, but its timeout is `time.Duration(s.Timeout) * time.Second`
= `10^18` ns (~31.7 years) — the configured timeout's numeric value
multiplied by one second — not the configured timeout duration
(`10^9` ns) itself. -/
theorem c7_dial_timeout_scaled :
    (checkNet c7Env c7S).2.2
        = some { network := "tcp", addr := "[::1]:80", timeoutNs := 1000000000000000000 }
    ∧ dialTimeoutNs c7S ≠ c7S.timeout := ⟨rfl, by decide⟩

/-- C8 (amended): an ICMP check whose echo gets no reply before the
timeout (resolve and run both clean) pushes exactly one Failure whose
network latency is the sentinel `-1`; its issue text is the source's
literal message `Reachmed max ICMP idle timeout` (sic). -/
theorem c8_icmp_timeout_failure (env : IcmpEnv) (s : Service)
    (h1 : env.resolveErr = none) (h2 : env.runErr = none) (h3 : env.reply = none) :
    (checkICMP env s).2.map (fun o => (o.isFail, o.issueOf, o.netLat))
        = [(true, "Reachmed max ICMP idle timeout", -1)]
    ∧ (checkICMP env s).1.networkLatency = -1 := by
  constructor
  · simp [checkICMP, h1, h2, h3, serviceFailure, Outcome.isFail, Outcome.issueOf,
      Outcome.netLat]
  · simp [checkICMP, h1, h2, h3, serviceFailure_netLat]

/-- The concrete service of the C8 instances. -/
def c8S : Service := { baseService with address := "10.9.9.8" }

/-- The concrete environment of the C8 instances: resolve and run
clean, no echo reply before the timeout. -/
def c8Env : IcmpEnv := { resolveErr := none, runErr := none, reply := none, traces := [] }

/-- C8 counterexample: the idle-timeout Failure's issue text is the
source's literal "Reachmed max ICMP idle timeout", not the claimed
"reached max ICMP idle timeout". -/
theorem c8_message_typo :
    (checkICMP c8Env c8S).2.map Outcome.issueOf = ["Reachmed max ICMP idle timeout"]
    ∧ "Reachmed max ICMP idle timeout" ≠ "reached max ICMP idle timeout" :=
  ⟨rfl, by decide⟩

/-- Witness for C8 at the concrete no-reply run: the hypotheses hold
and the service's network latency is left at the sentinel. -/
theorem c8_icmp_timeout_failure_witness :
    c8Env.resolveErr = none ∧ c8Env.runErr = none ∧ c8Env.reply = none
    ∧ (checkICMP c8Env c8S).1.networkLatency = -1 :=
  ⟨rfl, rfl, rfl, (c8_icmp_timeout_failure c8Env c8S rfl rfl rfl).2⟩

/-- C10: for an HTTP endpoint whose `ExpectedStatus` is the zero
default, every completed HTTP exchange (DNS and transport succeed, the
body pattern is empty or matches) pushes exactly one outcome and it is
a Failure, never a Success, because `ExpectedStatus != StatusCode` holds
for every response whose status code is nonzero. -/
theorem c10_zero_expected_status (env : HttpEnv) (s : Service) (d : Int) (hr : HttpResp)
    (hz : s.expectedStatus = 0) (hdns : env.dns = Except.ok d)
    (hresp : env.resp = Except.ok hr) (hcode : hr.statusCode ≠ 0)
    (hbody : s.expected = "" ∨ env.matched = true) :
    (checkHTTP env s).2.map Outcome.isFail = [true] := by
  have hne : s.expectedStatus ≠ hr.statusCode := by
    rw [hz]; exact fun h => hcode h.symm
  rcases hbody with hb | hb
  · simp [checkHTTP, hdns, hresp, hb, hne, serviceFailure_isFail, Outcome.isFail,
      serviceFailure]
  · simp [checkHTTP, hdns, hresp, hb, hne, serviceFailure_isFail, Outcome.isFail,
      serviceFailure]

/-- The concrete environment of the C10 witness: a completed exchange
returning status 200 with a matching (empty) body pattern. -/
def c10Env : HttpEnv :=
  { dns := .ok 1, resp := .ok { content := "ok", statusCode := 200, netLat := 1, reqLat := 2 },
    matched := true, traces := [] }

/-- Witness for C10 at `ExpectedStatus = 0` (the default) and a 200
response: the exchange completes yet the single outcome is a Failure. -/
theorem c10_zero_expected_status_witness :
    baseService.expectedStatus = 0 ∧ (200 : Int) ≠ 0
    ∧ (checkHTTP c10Env baseService).2.map Outcome.isFail = [true] :=
  ⟨rfl, by decide,
    c10_zero_expected_status c10Env baseService 1
      { content := "ok", statusCode := 200, netLat := 1, reqLat := 2 }
      rfl rfl rfl (by decide) (Or.inl rfl)⟩

/-! ## The per-endpoint monitoring loop (`Scout`) -/

/-- The ambient data of one loop iteration: the wall-clock instant
`now` read after the check, and the `rand.Float64()` fraction the
backoff would draw. -/
structure TickEnv where
  now : Int
  frac : ℚ
deriving Repr

/-- One iteration of the `ScoutLoop` timer branch: run the check,
advance the checkpoint by exactly one interval, and choose the next
sleep: the interval when online; the backoff when offline with retry;
the drift-corrected `checkpoint - now` (possibly negative) otherwise. -/
def scoutTick (check : Service → Service × List Outcome) (e : TickEnv)
    (s : Service) : Service × List Outcome :=
  let r := check s
  let s2 := { r.1 with checkpoint := r.1.checkpoint + r.1.interval }
  let sleep : Int := s2.checkpoint - e.now
  let s3 :=
    if s2.online = true then { s2 with sleepDuration := s2.interval }
    else if s2.retry = true then linearJitterBackoff e.frac s2
    else { s2 with sleepDuration := sleep }
  (s3, r.2)

/-- The `ScoutLoop`: at each iteration the `select` takes the
`<-s.Running` branch — exiting the loop — exactly when the stop channel
has been closed (a closed channel is immediately receivable, while the
timer must first sleep the positive current sleep duration); otherwise
the timer branch runs one `scoutTick`. -/
def scoutSteps (check : Service → Service × List Outcome) :
    List TickEnv → Service → Service × List Outcome
  | [], s => (s, [])
  | e :: rest, s =>
    if s.running = some false then (s, [])
    else
      let r1 := scoutTick check e s
      let r2 := scoutSteps check rest r1.1
      (r2.1, r1.2 ++ r2.2)

/-- The prologue of `Scout()`: default the timeout to one second when
unset, `Start()` (fresh open stop channel), anchor the checkpoint at
now, run the first check immediately (outside the wait loop), then set
the sleep duration to the configured interval. -/
def scoutInit (check : Service → Service × List Outcome) (now0 : Int)
    (s : Service) : Service × List Outcome :=
  let s0 := if s.timeout = 0 then { s with timeout := 1000000000 } else s
  let s1 := serviceStart s0
  let s2 := { s1 with checkpoint := now0 }
  let r := check s2
  ({ r.1 with sleepDuration := r.1.interval }, r.2)

/-- A whole `Scout()` run: the prologue followed by the loop, with the
outcome stream in push order. -/
def scoutRun (check : Service → Service × List Outcome) (now0 : Int)
    (envs : List TickEnv) (s : Service) : Service × List Outcome :=
  let r1 := scoutInit check now0 s
  let r2 := scoutSteps check envs r1.1
  (r2.1, r1.2 ++ r2.2)

/-- An endpoint that fails on every check: each `Check()` invocation
reports exactly one `Failure(issue)` (§4.2: each checker calls exactly
one of the reporting operations). -/
def failingCheck (issue : String) (tr : List Int) :
    Service → Service × List Outcome :=
  fun s => ((serviceFailure issue tr s).1, [(serviceFailure issue tr s).2])

/-- A stopped loop stays stopped and produces nothing. -/
theorem scoutSteps_stopped (check : Service → Service × List Outcome)
    (envs : List TickEnv) (s : Service) (h : s.running = some false) :
    scoutSteps check envs s = (s, []) := by
  cases envs with
  | nil => rfl
  | cons e rest => simp [scoutSteps, h]

/-- How `Failure` transforms the loop-relevant state: the retry
configuration and attempt counter are untouched, the service goes
offline, the stop channel is closed exactly when exhausted, and the
pushed outcome's flag is the exhaustion test's value. -/
theorem serviceFailure_loop_state (issue : String) (tr : List Int) (s : Service) :
    ((serviceFailure issue tr s).1).retry = s.retry
    ∧ ((serviceFailure issue tr s).1).retryMax = s.retryMax
    ∧ ((serviceFailure issue tr s).1).retryAttempts = s.retryAttempts
    ∧ ((serviceFailure issue tr s).1).online = false
    ∧ ((serviceFailure issue tr s).1).running
        = (if failExhausted s = true then (serviceStop s).running else s.running)
    ∧ ((serviceFailure issue tr s).2).exhausted = failExhausted s := by
  unfold serviceFailure serviceStop
  cases htr : s.trace <;> split_ifs <;> simp_all [Outcome.exhausted]

/-- How the backoff transforms the loop-relevant state: one increment
of the attempt counter, everything else untouched. -/
theorem linearJitterBackoff_loop_state (f : ℚ) (s : Service) :
    (linearJitterBackoff f s).retry = s.retry
    ∧ (linearJitterBackoff f s).retryMax = s.retryMax
    ∧ (linearJitterBackoff f s).retryAttempts = s.retryAttempts + 1
    ∧ (linearJitterBackoff f s).running = s.running := by
  simp only [linearJitterBackoff]
  split_ifs <;> exact ⟨rfl, rfl, rfl, rfl⟩

/-- One loop iteration of an always-failing, retry-enabled endpoint:
it pushes exactly the one `Failure` outcome, and the resulting state
has the same retry configuration, the counter incremented once by the
backoff, and the stop channel closed exactly when this `Failure` was
the exhausted one. -/
theorem scoutTick_fail (issue : String) (tr : List Int) (e : TickEnv)
    (s : Service) (hr : s.retry = true) :
    (scoutTick (failingCheck issue tr) e s).2 = [(serviceFailure issue tr s).2]
    ∧ (scoutTick (failingCheck issue tr) e s).1.retry = s.retry
    ∧ (scoutTick (failingCheck issue tr) e s).1.retryMax = s.retryMax
    ∧ (scoutTick (failingCheck issue tr) e s).1.retryAttempts = s.retryAttempts + 1
    ∧ (scoutTick (failingCheck issue tr) e s).1.running
        = (if failExhausted s = true then (serviceStop s).running else s.running) := by
  obtain ⟨hfr, hfm, hfa, hfo, hfrun, _⟩ := serviceFailure_loop_state issue tr s
  have hs3 : (scoutTick (failingCheck issue tr) e s).1
      = linearJitterBackoff e.frac
          { (serviceFailure issue tr s).1 with
              checkpoint := (serviceFailure issue tr s).1.checkpoint
                + (serviceFailure issue tr s).1.interval } := by
    simp only [scoutTick, failingCheck]
    rw [hfo, hfr, hr]
    simp
  obtain ⟨hbr, hbm, hba, hbrun⟩ := linearJitterBackoff_loop_state e.frac
    { (serviceFailure issue tr s).1 with
        checkpoint := (serviceFailure issue tr s).1.checkpoint
          + (serviceFailure issue tr s).1.interval }
  refine ⟨rfl, ?_, ?_, ?_, ?_⟩
  · rw [hs3, hbr]; exact hfr
  · rw [hs3, hbm]; exact hfm
  · rw [hs3, hba]
    have : ({ (serviceFailure issue tr s).1 with
        checkpoint := (serviceFailure issue tr s).1.checkpoint
          + (serviceFailure issue tr s).1.interval } : Service).retryAttempts
        = s.retryAttempts := hfa
    omega
  · rw [hs3, hbrun]; exact hfrun

/-- The loop of an always-failing, retry-enabled endpoint, from a state
whose counter already reads `a ≤ m` consecutive failures (`retryMax =
m > 0`, channel open): over `n` available ticks it pushes
`min n (m + 1 - a)` further Failure outcomes, whose exhausted flags are
false except on the last when the budget is reached (`a + k = m`); the
channel ends closed exactly when the budget was reached. -/
theorem scoutSteps_failing (issue : String) (tr : List Int) (m : Nat)
    (hm : 0 < m) :
    ∀ (envs : List TickEnv) (s : Service) (a : Nat),
      s.running = some true → s.retry = true → s.retryMax = (m : Int) →
      s.retryAttempts = (a : Int) → a ≤ m →
      ((scoutSteps (failingCheck issue tr) envs s).2.map Outcome.exhausted
          = (List.range (min envs.length (m + 1 - a))).map
              (fun k => decide (a + k = m)))
      ∧ (m + 1 - a ≤ envs.length →
          (scoutSteps (failingCheck issue tr) envs s).1.running = some false)
      ∧ (envs.length < m + 1 - a →
          (scoutSteps (failingCheck issue tr) envs s).1.running = some true) := by
  intro envs
  induction envs with
  | nil =>
    intro s a h1 h2 h3 h4 h5
    refine ⟨by simp [scoutSteps], ?_, ?_⟩
    · intro h
      simp only [List.length_nil] at h
      omega
    · intro _
      simpa [scoutSteps] using h1
  | cons e rest ih =>
    intro s a h1 h2 h3 h4 h5
    have hne : ¬ (s.running = some false) := by rw [h1]; simp
    have hex : failExhausted s = decide (a = m) := by
      unfold failExhausted
      rw [h3, h4]
      apply decide_eq_decide.mpr
      constructor
      · rintro ⟨hh, _⟩; exact_mod_cast hh
      · intro hh
        subst hh
        exact ⟨rfl, by exact_mod_cast hm.ne'⟩
    have hstop : (serviceStop s).running = some false := by
      simp [serviceStop, isRunningS, h1]
    obtain ⟨_, _, _, _, _, hoex⟩ := serviceFailure_loop_state issue tr s
    obtain ⟨ht2, htr, htm, hta, htrun⟩ := scoutTick_fail issue tr e s h2
    have hunf : scoutSteps (failingCheck issue tr) (e :: rest) s
        = ((scoutSteps (failingCheck issue tr) rest
              (scoutTick (failingCheck issue tr) e s).1).1,
           (scoutTick (failingCheck issue tr) e s).2
             ++ (scoutSteps (failingCheck issue tr) rest
                  (scoutTick (failingCheck issue tr) e s).1).2) := by
      simp only [scoutSteps]
      rw [if_neg hne]
    by_cases hcase : a = m
    · subst hcase
      have htr1 : (scoutTick (failingCheck issue tr) e s).1.running = some false := by
        rw [htrun, hex]
        simp [hstop]
      have hrest := scoutSteps_stopped (failingCheck issue tr) rest
        (scoutTick (failingCheck issue tr) e s).1 htr1
      rw [hunf, hrest]
      refine ⟨?_, fun _ => htr1, fun hlen => ?_⟩
      · rw [ht2]
        have hmin : min (e :: rest).length (a + 1 - a) = 1 := by
          simp only [List.length_cons]
          omega
        rw [hmin]
        simp [hoex, hex]
        decide
      · simp only [List.length_cons] at hlen
        omega
    · have hlt : a < m := lt_of_le_of_ne h5 hcase
      have htr1 : (scoutTick (failingCheck issue tr) e s).1.running = some true := by
        rw [htrun, hex]
        simp [hcase, h1]
      have h2' : (scoutTick (failingCheck issue tr) e s).1.retry = true := by
        rw [htr, h2]
      have h3' : (scoutTick (failingCheck issue tr) e s).1.retryMax = (m : Int) := by
        rw [htm, h3]
      have h4' : (scoutTick (failingCheck issue tr) e s).1.retryAttempts
          = ((a + 1 : Nat) : Int) := by
        rw [hta, h4]
        push_cast
        ring
      obtain ⟨ihmap, ihcl, ihop⟩ := ih (scoutTick (failingCheck issue tr) e s).1
        (a + 1) htr1 h2' h3' h4' hlt
      have hma : m + 1 - (a + 1) = m - a := by omega
      rw [hma] at ihmap ihcl ihop
      rw [hunf]
      refine ⟨?_, ?_, ?_⟩
      · simp only [List.map_append, ihmap, ht2]
        have hone : List.map Outcome.exhausted [(serviceFailure issue tr s).2]
            = [false] := by
          simp [hoex, hex, hcase]
        rw [hone]
        have hmin : min (e :: rest).length (m + 1 - a) = min rest.length (m - a) + 1 := by
          simp only [List.length_cons]
          omega
        rw [hmin, List.range_succ_eq_map, List.map_cons, List.map_map]
        have hz : decide (a + 0 = m) = false := by
          simp
          omega
        rw [hz, List.singleton_append]
        have hfun : (fun k => decide (a + 1 + k = m))
            = ((fun k => decide (a + k = m)) ∘ Nat.succ) := by
          funext k
          simp only [Function.comp_apply]
          exact decide_eq_decide.mpr (by omega)
        rw [hfun]
      · intro hlen
        simp only [List.length_cons] at hlen
        exact ihcl (by omega)
      · intro hlen
        simp only [List.length_cons] at hlen
        exact ihop (by omega)

/-- `Failure` on a service whose stop channel is open: the channel ends
closed exactly when the exhaustion test fired. -/
theorem serviceFailure_open (issue : String) (tr : List Int) (t : Service)
    (hrun : t.running = some true) :
    ((serviceFailure issue tr t).1).running
        = (if failExhausted t = true then some false else some true) := by
  obtain ⟨_, _, _, _, h5, _⟩ := serviceFailure_loop_state issue tr t
  rw [h5]
  split_ifs
  · simp [serviceStop, isRunningS, hrun]
  · exact hrun

/-- The prologue of `Scout()` on an always-failing endpoint: the first
(anchor) check pushes exactly one Failure — flagged by the exhaustion
test of the initial counter — and the retry configuration and counter
are untouched (in particular the pre-loop check never increments the
counter); the channel stays open unless that very first failure was the
exhausted one. -/
theorem scoutInit_fail (issue : String) (tr : List Int) (now0 : Int) (s : Service) :
    ((scoutInit (failingCheck issue tr) now0 s).2).map Outcome.exhausted
        = [failExhausted s]
    ∧ (scoutInit (failingCheck issue tr) now0 s).1.retry = s.retry
    ∧ (scoutInit (failingCheck issue tr) now0 s).1.retryMax = s.retryMax
    ∧ (scoutInit (failingCheck issue tr) now0 s).1.retryAttempts = s.retryAttempts
    ∧ (scoutInit (failingCheck issue tr) now0 s).1.running
        = (if failExhausted s = true then some false else some true)
    ∧ (scoutInit (failingCheck issue tr) now0 s).2.length = 1 := by
  by_cases ht : s.timeout = 0
  · have e1 : scoutInit (failingCheck issue tr) now0 s
        = ({ (serviceFailure issue tr
                { s with timeout := 1000000000, running := some true,
                         checkpoint := now0 }).1 with
              sleepDuration := (serviceFailure issue tr
                { s with timeout := 1000000000, running := some true,
                         checkpoint := now0 }).1.interval },
           [(serviceFailure issue tr
              { s with timeout := 1000000000, running := some true,
                       checkpoint := now0 }).2]) := by
      simp only [scoutInit, failingCheck, serviceStart, if_pos ht]
    obtain ⟨hfr, hfm, hfa, _, _, hoex⟩ := serviceFailure_loop_state issue tr
      { s with timeout := 1000000000, running := some true, checkpoint := now0 }
    refine ⟨?_, ?_, ?_, ?_, ?_, ?_⟩
    · rw [e1]
      simp only [List.map_cons, List.map_nil, hoex]
      rfl
    · rw [e1]; exact hfr
    · rw [e1]; exact hfm
    · rw [e1]; exact hfa
    · rw [e1]
      exact serviceFailure_open issue tr
        { s with timeout := 1000000000, running := some true, checkpoint := now0 } rfl
    · rw [e1]; rfl
  · have e1 : scoutInit (failingCheck issue tr) now0 s
        = ({ (serviceFailure issue tr
                { s with running := some true, checkpoint := now0 }).1 with
              sleepDuration := (serviceFailure issue tr
                { s with running := some true, checkpoint := now0 }).1.interval },
           [(serviceFailure issue tr
              { s with running := some true, checkpoint := now0 }).2]) := by
      simp only [scoutInit, failingCheck, serviceStart, if_neg ht]
    obtain ⟨hfr, hfm, hfa, _, _, hoex⟩ := serviceFailure_loop_state issue tr
      { s with running := some true, checkpoint := now0 }
    refine ⟨?_, ?_, ?_, ?_, ?_, ?_⟩
    · rw [e1]
      simp only [List.map_cons, List.map_nil, hoex]
      rfl
    · rw [e1]; exact hfr
    · rw [e1]; exact hfm
    · rw [e1]; exact hfa
    · rw [e1]
      exact serviceFailure_open issue tr
        { s with running := some true, checkpoint := now0 } rfl
    · rw [e1]; rfl

/-- C1 (amended): for an always-failing endpoint with retry enabled and
`retryMax = m > 0` (counter starting at 0), a `Scout()` run with `n`
loop ticks available pushes `1 + min n (m+1)` Failure outcomes in
total; their exhausted flags are false except on the `(m+2)`-th outcome
(index `m+1`) — the anchor check and the first loop check both report
with the counter still 0, because the counter increments only after an
in-loop failing check — at which point the channel is closed and, for
every larger `n`, no further outcome is produced. -/
theorem c1_exhaustion_at_retrymax_plus_two (m : Nat) (hm : 0 < m)
    (s0 : Service) (issue : String) (tr : List Int) (now0 : Int)
    (envs : List TickEnv) (hretry : s0.retry = true)
    (hmax : s0.retryMax = (m : Int)) (hatt : s0.retryAttempts = 0) :
    (scoutRun (failingCheck issue tr) now0 envs s0).2.length
        = 1 + min envs.length (m + 1)
    ∧ (scoutRun (failingCheck issue tr) now0 envs s0).2.map Outcome.exhausted
        = (List.range (1 + min envs.length (m + 1))).map
            (fun k => decide (k = m + 1))
    ∧ (m + 1 ≤ envs.length →
        (scoutRun (failingCheck issue tr) now0 envs s0).1.running = some false)
    ∧ (envs.length < m + 1 →
        (scoutRun (failingCheck issue tr) now0 envs s0).1.running = some true) := by
  obtain ⟨hi2, hir, him, hia, hirun, hilen⟩ := scoutInit_fail issue tr now0 s0
  have hex0 : failExhausted s0 = false := by
    unfold failExhausted
    rw [hatt, hmax]
    apply decide_eq_false
    rintro ⟨hh, _⟩
    have hmz : m = 0 := by exact_mod_cast hh.symm
    omega
  have hs1run : (scoutInit (failingCheck issue tr) now0 s0).1.running = some true := by
    rw [hirun, hex0]
    simp
  have hs1r : (scoutInit (failingCheck issue tr) now0 s0).1.retry = true := by
    rw [hir, hretry]
  have hs1m : (scoutInit (failingCheck issue tr) now0 s0).1.retryMax = (m : Int) := by
    rw [him, hmax]
  have hs1a : (scoutInit (failingCheck issue tr) now0 s0).1.retryAttempts
      = ((0 : Nat) : Int) := by
    rw [hia, hatt]
    simp
  obtain ⟨hmap, hcl, hop⟩ := scoutSteps_failing issue tr m hm envs
    (scoutInit (failingCheck issue tr) now0 s0).1 0 hs1run hs1r hs1m hs1a
    (Nat.zero_le m)
  simp only [Nat.sub_zero] at hmap hcl hop
  have hrun : scoutRun (failingCheck issue tr) now0 envs s0
      = ((scoutSteps (failingCheck issue tr) envs
            (scoutInit (failingCheck issue tr) now0 s0).1).1,
         (scoutInit (failingCheck issue tr) now0 s0).2
           ++ (scoutSteps (failingCheck issue tr) envs
                (scoutInit (failingCheck issue tr) now0 s0).1).2) := rfl
  have hfull : (scoutRun (failingCheck issue tr) now0 envs s0).2.map Outcome.exhausted
      = (List.range (1 + min envs.length (m + 1))).map (fun k => decide (k = m + 1)) := by
    rw [hrun]
    simp only [List.map_append, hmap, hi2, hex0]
    have h1x : (1 : Nat) + min envs.length (m + 1) = min envs.length (m + 1) + 1 := by
      omega
    rw [h1x, List.range_succ_eq_map, List.map_cons, List.map_map,
      List.singleton_append]
    have hz : decide ((0 : Nat) = m + 1) = false := by simp
    rw [hz]
    have hfun : (fun k => decide ((0 : Nat) + k = m))
        = ((fun k => decide (k = m + 1)) ∘ Nat.succ) := by
      funext k
      simp only [Function.comp_apply]
      exact decide_eq_decide.mpr (by omega)
    rw [hfun]
  refine ⟨?_, hfull, ?_, ?_⟩
  · have hc := congrArg List.length hfull
    simpa using hc
  · intro h
    rw [hrun]
    exact hcl (by omega)
  · intro h
    rw [hrun]
    exact hop (by omega)

/-- The concrete always-failing endpoint of the C1/C2 instances:
retry enabled, `retryMax = 3`. -/
def c1S : Service :=
  { baseService with retry := true, retryMax := 3, interval := 1000, timeout := 5 }

/-- A concrete tick environment. -/
def c1E : TickEnv := { now := 0, frac := 0 }

/-- C1 counterexample: with `maxAttempts = 3` and five loop ticks
available, the exhausted flags of the produced outcomes are
`[false, false, false, false, true]`: the 3rd Failure outcome is NOT
flagged exhausted (the claim says it is), a 4th and a 5th outcome do
arrive after it, and it is the 5th (= `m + 2`-th) that is exhausted. -/
theorem c1_third_failure_not_exhausted :
    (scoutRun (failingCheck "down" []) 0 [c1E, c1E, c1E, c1E, c1E] c1S).2.map
        Outcome.exhausted
      = [false, false, false, false, true]
    ∧ (scoutRun (failingCheck "down" []) 0 [c1E, c1E, c1E, c1E, c1E] c1S).2.length
      = 5 := by
  constructor
  · rfl
  · rfl

/-- The tick list of the C1 witness (`m + 1 = 4` ticks). -/
def c1Envs : List TickEnv := [c1E, c1E, c1E, c1E]

/-- Witness for C1 at `m = 3` with 4 loop ticks: the hypotheses hold
and the flag pattern places the exhausted Failure at index 4 (the 5th
outcome), with the loop stopped. -/
theorem c1_exhaustion_witness :
    0 < 3 ∧ c1S.retry = true ∧ c1S.retryMax = ((3 : Nat) : Int)
    ∧ c1S.retryAttempts = 0
    ∧ (scoutRun (failingCheck "down" []) 0 c1Envs c1S).2.map Outcome.exhausted
        = (List.range (1 + min c1Envs.length (3 + 1))).map
            (fun k => decide (k = 3 + 1)) :=
  ⟨by decide, rfl, by decide, rfl,
    (c1_exhaustion_at_retrymax_plus_two 3 (by decide) c1S "down" [] 0 c1Envs
      rfl (by decide) rfl).2.1⟩

/-- C2 (amended): the retry attempt counter is exactly 0 immediately
after every Success report; the pre-loop anchor check of `Scout()`
pushes one Failure without touching the counter; and, with retry
enabled, each failing in-loop check cycle pushes one Failure and
increments the counter by exactly 1 — the increment is per failing
cycle (performed by the backoff after the check), not per Failure
outcome. -/
theorem c2_retry_counter (s : Service) (issue : String) (tr : List Int)
    (e : TickEnv) (now0 : Int) :
    (serviceSuccess s).1.retryAttempts = 0
    ∧ (scoutInit (failingCheck issue tr) now0 s).1.retryAttempts = s.retryAttempts
    ∧ (scoutInit (failingCheck issue tr) now0 s).2.length = 1
    ∧ (s.retry = true →
        (scoutTick (failingCheck issue tr) e s).1.retryAttempts
            = s.retryAttempts + 1
        ∧ (scoutTick (failingCheck issue tr) e s).2.length = 1) := by
  obtain ⟨_, _, _, hia, _, hilen⟩ := scoutInit_fail issue tr now0 s
  refine ⟨rfl, hia, hilen, ?_⟩
  intro hr
  obtain ⟨ht2, _, _, hta, _⟩ := scoutTick_fail issue tr e s hr
  exact ⟨hta, by rw [ht2]; rfl⟩

/-- C2 counterexample: the anchor check of an always-failing,
retry-enabled endpoint pushes one Failure outcome while the counter
remains 0, not 1 — so the counter does not increase by 1 on every
Failure report. -/
theorem c2_first_failure_no_increment :
    (scoutInit (failingCheck "down" []) 0 c1S).2.length = 1
    ∧ (scoutInit (failingCheck "down" []) 0 c1S).1.retryAttempts = 0
    ∧ (scoutInit (failingCheck "down" []) 0 c1S).1.retryAttempts ≠ 1 := by
  refine ⟨rfl, rfl, by decide⟩

/-- Witness for C2 at the concrete retry-enabled endpoint: one in-loop
failing cycle increments the counter by exactly 1. -/
theorem c2_retry_counter_witness :
    c1S.retry = true
    ∧ (scoutTick (failingCheck "down" []) c1E c1S).1.retryAttempts
        = c1S.retryAttempts + 1 :=
  ⟨rfl, ((c2_retry_counter c1S "down" [] c1E 0).2.2.2 rfl).1⟩
